import Mathlib

/-!
Verification development for the keyed-storage containers of the repository:
`DoubleKeyTable` (double_key_table.py) and `InfiniteHashTable`
(infinite_hash_table.py).  The Python classes are shallowly embedded as
executable Lean functions over explicit state values; raised Python
exceptions are modelled with `Except PyError`.
-/

namespace A2

/-- Python exceptions raised (or raisable) by the embedded code. -/
inductive PyError : Type where
  | keyError
  | typeError
  | attributeError
  | stopIteration
  | fullError
  | indexError
  | recursionError
deriving DecidableEq, Repr

/-! ## InfiniteHashTable (src/infinite_hash_table.py)

A node owns a fixed array of `TABLE_SIZE` slots; each slot is empty, a
`(key, value)` leaf pair, or a child node one level deeper.  The child
node's three fields (`level`, `count`, `array`) are stored inline in the
`IEntry.child` constructor so that the type is a plain nested inductive. -/

namespace InfiniteHashTable

/-- Constant `TABLE_SIZE = 27` from the source. -/
def TABLE_SIZE : Nat := 27

/-- One slot of a node's array: `None`, a `(key, value)` tuple, or a nested
`InfiniteHashTable` (its `level`, `count` and `array` fields inlined). -/
inductive IEntry (V : Type) : Type where
  | empty : IEntry V
  | pair : String → V → IEntry V
  | child : Nat → Int → List (IEntry V) → IEntry V

/-- An `InfiniteHashTable` instance: `self.array`, `self.level`, `self.count`. -/
structure IHT (V : Type) : Type where
  level : Nat
  count : Int
  array : List (IEntry V)

/-- View a `child` slot as a table. -/
def IEntry.toTable {V : Type} : IEntry V → Option (IHT V)
  | .child l c a => some ⟨l, c, a⟩
  | _ => none

/-- Source `__init__(level)`: fresh node with 27 empty slots and `count = 0`. -/
def init (V : Type) (level : Nat) : IHT V :=
  ⟨level, 0, List.replicate TABLE_SIZE .empty⟩

/-- Source `hash(key)`: `ord(key[level]) % (TABLE_SIZE - 1)` while the
key still has a character at this level, else the sentinel `TABLE_SIZE - 1`. -/
def hashAt (level : Nat) (key : String) : Nat :=
  if level < key.length then (key.data.getD level 'a').toNat % (TABLE_SIZE - 1)
  else TABLE_SIZE - 1

/-- Source `__getitem__` (fuel bounds the recursion depth; fuel
exhaustion models Python's RecursionError and is never hit in our uses). -/
def get {V : Type} (fuel : Nat) (t : IHT V) (key : String) : Except PyError V :=
  match fuel with
  | 0 => .error .recursionError
  | fuel + 1 =>
    let index := hashAt t.level key
    match t.array.getD index .empty with
    | .empty => .error .keyError
    | .pair k v => if k = key then .ok v else .error .keyError
    | .child l c a => get fuel ⟨l, c, a⟩ key

/-- Source `__setitem__`.  Note: `self.count` is incremented only in
the empty-slot branch — the collision branch and the recurse-into-child branch
leave the node's own `count` unchanged, exactly as the Python does. -/
def set {V : Type} (fuel : Nat) (t : IHT V) (key : String) (value : V) :
    Except PyError (IHT V) :=
  match fuel with
  | 0 => .error .recursionError
  | fuel + 1 =>
    let index := hashAt t.level key
    match t.array.getD index .empty with
    | .empty => .ok ⟨t.level, t.count + 1, t.array.set index (.pair key value)⟩
    | .pair k0 v0 =>
      if k0 = key then
        .ok ⟨t.level, t.count, t.array.set index (.pair key value)⟩
      else do
        let t1 ← set fuel (init V (t.level + 1)) k0 v0
        let t2 ← set fuel t1 key value
        .ok ⟨t.level, t.count, t.array.set index (.child t2.level t2.count t2.array)⟩
    | .child l c a => do
        let ch ← set fuel ⟨l, c, a⟩ key value
        .ok ⟨t.level, t.count, t.array.set index (.child ch.level ch.count ch.array)⟩

/-- Source `__delitem__`.  After a recursive delete, if the child's
`count` equals 1 the code runs `k, v = next(iter(entry.array))`: `ArrayR` has
no `__iter__`, so iteration yields the slots in index order (slot 0 first,
empty slots included — compare `__str__` in the source, which guards each
iterated entry with `is not None`); unpacking a `None` slot or a nested table
raises TypeError. -/
def delete {V : Type} (fuel : Nat) (t : IHT V) (key : String) :
    Except PyError (IHT V) :=
  match fuel with
  | 0 => .error .recursionError
  | fuel + 1 =>
    let index := hashAt t.level key
    match t.array.getD index .empty with
    | .empty => .error .keyError
    | .pair k0 _ =>
      if k0 = key then .ok ⟨t.level, t.count - 1, t.array.set index .empty⟩
      else .error .keyError
    | .child l c a => do
        let ch ← delete fuel ⟨l, c, a⟩ key
        if ch.count = 1 then
          match ch.array.headD .empty with
          | .pair k v => .ok ⟨t.level, t.count, t.array.set index (.pair k v)⟩
          | _ => .error .typeError
        else
          .ok ⟨t.level, t.count, t.array.set index (.child ch.level ch.count ch.array)⟩

/-- Source `__len__`: returns `self.count`. -/
def len {V : Type} (t : IHT V) : Int := t.count

mutual

/-- Source `get_location`: start with `[hash(key)]`; an empty slot or
a mismatched leaf raises KeyError; a matching leaf returns the path; a child
slot enters the `while` loop (`locLoop`). -/
def getLocation {V : Type} (fuel : Nat) (t : IHT V) (key : String) :
    Except PyError (List Nat) :=
  match fuel with
  | 0 => .error .recursionError
  | fuel + 1 =>
    let index := hashAt t.level key
    match t.array.getD index .empty with
    | .empty => .error .keyError
    | .pair k _ => if k = key then .ok [index] else .error .keyError
    | .child l c a => locLoop fuel key [index] (.child l c a)

/-- The `while` loop of `get_location`: while `entry` is not a matching leaf,
call `entry.get_location(key)` (AttributeError when `entry` is `None` or a
mismatched tuple), extend the path, and reassign
`entry = entry.array[sub_location[-1]]` — indexing the *immediate* child's
array with the last index of the whole sub-path, as the source does. -/
def locLoop {V : Type} (fuel : Nat) (key : String) (location : List Nat)
    (entry : IEntry V) : Except PyError (List Nat) :=
  match fuel with
  | 0 => .error .recursionError
  | fuel + 1 =>
    match entry with
    | .pair k _ =>
      if k = key then .ok location
      else .error .attributeError
    | .empty => .error .attributeError
    | .child l c a => do
        let sub ← getLocation fuel ⟨l, c, a⟩ key
        locLoop fuel key (location ++ sub) (a.getD (sub.getLastD 0) .empty)

end

/-- Child table stored at slot `idx`, if any. -/
def childAt {V : Type} (t : IHT V) (idx : Nat) : Option (IHT V) :=
  (t.array.getD idx .empty).toTable

/-- Descend through child slots along a path of indices. -/
def nodeAtPath {V : Type} : IHT V → List Nat → Option (IHT V)
  | t, [] => some t
  | t, i :: is => (childAt t i).bind fun ch => nodeAtPath ch is

/-- Ample fuel for the concrete scenarios below (all keys have length ≤ 3). -/
def F : Nat := 100

/-- The table obtained from `InfiniteHashTable()` by `t["cat"] = v1` then
`t["car"] = v2` (concrete scenario 2 of the spec). -/
def triCatCar (v1 v2 : Nat) : Except PyError (IHT Nat) := do
  let t ← set F (init Nat 0) "cat" v1
  set F t "car" v2

/-- State `triCatCar` followed by `t["ca"] = v3` (concrete scenario 3 of the spec). -/
def triCatCarCa (v1 v2 v3 : Nat) : Except PyError (IHT Nat) := do
  let t ← triCatCar v1 v2
  set F t "ca" v3

end InfiniteHashTable

/-! ## LinearProbeTable (external leaf dependency)

`data_structures.hash_table.LinearProbeTable` is imported by
double_key_table.py but is not part of the repository's source tree. -/

namespace LinearProbeTable

/-- Modelled from the spec: `SimpleHashTable` (the `LinearProbeTable` leaf
dependency, absent from src/) — "backing array of slots, each either empty, or
holding (key, value)", with "deterministic linear probing with wraparound",
a growth sequence supplied at construction, and interface
`get / set / delete / isEmpty / capacity / keys / values`.  The spec does not
pin the hash function; we use the same polynomial family as `hash2` in
double_key_table.py (any deterministic hash conforms).  Internal growth is
never triggered in the scenarios proved below. -/
structure LPT (V : Type) : Type where
  sizes : List Nat
  sizeIndex : Nat
  array : List (Option (String × V))
  count : Nat

/-- Current capacity (`table_size` property of the leaf dependency). -/
def tableSize {V : Type} (t : LPT V) : Nat := t.array.length

/-- Modelled from the spec: fresh table at the first capacity of the supplied
growth sequence, all slots empty. -/
def lptInit (V : Type) (sizes : List Nat) : LPT V :=
  ⟨sizes, 0, List.replicate (sizes.headD 5) none, 0⟩

/-- Polynomial rolling hash of `hash2` in double_key_table.py: seed 31415,
step multiplier `HASH_BASE = 31`, value reduced mod the capacity and the
multiplier reduced mod `capacity - 1` at each character. -/
def polyHashAux (cap : Nat) : List Char → Nat → Nat → Nat
  | [], value, _ => value
  | c :: cs, value, a => polyHashAux cap cs ((c.toNat + a * value) % cap) (a * 31 % (cap - 1))

/-- Polynomial hash of a whole key modulo `cap`. -/
def polyHash (cap : Nat) (key : String) : Nat := polyHashAux cap key.data 0 31415

/-- Modelled from the spec: linear probing scan, bounded by one full pass over
the table; stops at an empty slot (found, for insert; NotFound otherwise) or a
slot holding the key. -/
def probeLoop {V : Type} (t : LPT V) (isInsert : Bool) (key : String) :
    Nat → Nat → Except PyError Nat
  | 0, _ => if isInsert then .error .fullError else .error .keyError
  | fuel + 1, pos =>
    match t.array.getD pos none with
    | none => if isInsert then .ok pos else .error .keyError
    | some (k, _) =>
      if k = key then .ok pos
      else probeLoop t isInsert key fuel ((pos + 1) % tableSize t)

/-- Modelled from the spec: `set(key, value)` — probe for the key, overwrite a
matching slot, or claim the first empty slot (incrementing the entry count). -/
def lptSet {V : Type} (t : LPT V) (key : String) (value : V) :
    Except PyError (LPT V) := do
  let pos ← probeLoop t true key (tableSize t) (polyHash (tableSize t) key)
  let fresh := (t.array.getD pos none).isNone
  .ok ⟨t.sizes, t.sizeIndex, t.array.set pos (some (key, value)),
       if fresh then t.count + 1 else t.count⟩

/-- Modelled from the spec: `get(key) -> V or NotFound`. -/
def lptGet {V : Type} (t : LPT V) (key : String) : Except PyError V := do
  let pos ← probeLoop t false key (tableSize t) (polyHash (tableSize t) key)
  match t.array.getD pos none with
  | some (_, v) => .ok v
  | none => .error .keyError

/-- Modelled from the spec: `delete(key) -> NotFound if absent`; clears the
key's slot and decrements the entry count (the leaf dependency's subsequent
cluster repair does not affect emptiness or counts and is not modelled). -/
def lptDelete {V : Type} (t : LPT V) (key : String) : Except PyError (LPT V) := do
  let pos ← probeLoop t false key (tableSize t) (polyHash (tableSize t) key)
  .ok ⟨t.sizes, t.sizeIndex, t.array.set pos none, t.count - 1⟩

/-- Modelled from the spec: `isEmpty()`. -/
def isEmpty {V : Type} (t : LPT V) : Bool := t.count = 0

/-- Modelled from the spec: `items()` in slot order. -/
def items {V : Type} (t : LPT V) : List (String × V) := t.array.filterMap id

/-- Modelled from the spec: `keys()` in slot order. -/
def lptKeys {V : Type} (t : LPT V) : List String := (items t).map Prod.fst

/-- Modelled from the spec: `values()` in slot order. -/
def lptValues {V : Type} (t : LPT V) : List V := (items t).map Prod.snd

end LinearProbeTable

/-! ## DoubleKeyTable (src/double_key_table.py) -/

namespace DoubleKeyTable

open LinearProbeTable

/-- Constant `TABLE_SIZES` from the source. -/
def TABLE_SIZES : List Nat :=
  [5, 13, 29, 53, 97, 193, 389, 769, 1543, 3079, 6151, 12289, 24593, 49157,
   98317, 196613, 393241, 786433, 1572869]

/-- A `DoubleKeyTable` instance: the (possibly overridden) growth sequence,
`size_index`, the outer `ArrayR` whose slots are nullable references to inner
tables, and `self.count` (set to 0 in `__init__` and never updated again by
the source). -/
structure DKT (V : Type) : Type where
  tableSizes : List Nat
  sizeIndex : Nat
  array : List (Option (LPT V))
  count : Nat

/-- Source `__init__(sizes, internal_sizes)`: every outer slot is
filled with a fresh empty inner table. -/
def dktInit (V : Type) (sizes internalSizes : Option (List Nat)) : DKT V :=
  let ts := sizes.getD TABLE_SIZES
  let its := internalSizes.getD ts
  ⟨ts, 0, List.replicate (ts.headD 0) (some (lptInit V its)), 0⟩

/-- Source `hash1(key)`.  In the source `table_size` is a plain
method (there is no `@property` decorator), so inside `hash1` the expression
`self.table_size` denotes the bound method object and the first loop iteration
evaluates `(ord(char) + a * value) % self.table_size`, which raises TypeError.
For the empty key the loop body never runs and `hash1` returns 0. -/
def hash1 (key : String) : Except PyError Nat :=
  match key.data with
  | [] => .ok 0
  | _ :: _ => .error .typeError

/-- Source `hash2(key, sub_table)`: polynomial hash modulo the inner
table's capacity (`sub_table.table_size` is a property of the leaf dependency
and evaluates to the capacity). -/
def hash2 {V : Type} (key : String) (subTable : LPT V) : Nat :=
  polyHash (tableSize subTable) key

/-- The probing loop of `_linear_probe` (source lines 113–122): scan at most
`table_size` slots from `position2`; an empty slot means found (insert) or
KeyError (lookup); a slot whose key equals `key2` means found; otherwise step
to the next slot with wraparound.  A full scan raises FullError (insert) or
KeyError (lookup). -/
def probeLoop2 {V : Type} (inner : LPT V) (key2 : String) (isInsert : Bool) :
    Nat → Nat → Except PyError Nat
  | 0, _ => if isInsert then .error .fullError else .error .keyError
  | fuel + 1, pos =>
    match inner.array.getD pos none with
    | none => if isInsert then .ok pos else .error .keyError
    | some (k, _) =>
      if k = key2 then .ok pos
      else probeLoop2 inner key2 isInsert fuel ((pos + 1) % tableSize inner)

/-- The tail of `_linear_probe` after the outer slot has been resolved: probe
the inner table from `hash2(key2, inner)` and pair the outcome with the table
state `t'` current at that point. -/
def probeFrom {V : Type} (position1 : Nat) (inner : LPT V) (key2 : String)
    (isInsert : Bool) (t' : DKT V) : DKT V × Except PyError (Nat × Nat) :=
  match probeLoop2 inner key2 isInsert (tableSize inner) (hash2 key2 inner) with
  | .ok p2 => (t', .ok (position1, p2))
  | .error e => (t', .error e)

/-- Source `_linear_probe(key1, key2, is_insert)`.  Returns the
(possibly mutated) table — when `is_insert` and the probed inner table is
empty, the source replaces that outer slot with a fresh
`LinearProbeTable(sizes=self.TABLE_SIZES)` *before* probing — together with
the probe result. -/
def linearProbe {V : Type} (t : DKT V) (key1 key2 : String) (isInsert : Bool) :
    DKT V × Except PyError (Nat × Nat) :=
  match hash1 key1 with
  | .error e => (t, .error e)
  | .ok position1 =>
    match t.array.getD position1 none with
    | none => (t, .error .attributeError)
    | some inner0 =>
      if isInsert && isEmpty inner0 then
        probeFrom position1 (lptInit V t.tableSizes) key2 isInsert
          ⟨t.tableSizes, t.sizeIndex,
           t.array.set position1 (some (lptInit V t.tableSizes)), t.count⟩
      else
        probeFrom position1 inner0 key2 isInsert t

/-- Source `__getitem__((key1, key2))`: `hash1`, then delegate to the
inner table. -/
def getItem {V : Type} (t : DKT V) (key1 key2 : String) : Except PyError V := do
  let position ← hash1 key1
  match t.array.getD position none with
  | none => .error .attributeError
  | some inner => lptGet inner key2

/-- Source `__setitem__((key1, key2), data)`: `hash1`, then delegate
to the inner table (the outer `count` is never touched). -/
def setItem {V : Type} (t : DKT V) (key1 key2 : String) (data : V) :
    Except PyError (DKT V) :=
  match hash1 key1 with
  | .error e => .error e
  | .ok position =>
    match t.array.getD position none with
    | none => .error .attributeError
    | some inner =>
      match lptSet inner key2 data with
      | .error e => .error e
      | .ok inner' =>
        .ok ⟨t.tableSizes, t.sizeIndex, t.array.set position (some inner'), t.count⟩

/-- Source `__delitem__((key1, key2))`: delete in the inner table;
when the inner table becomes empty, replace the outer slot with a fresh
`LinearProbeTable(sizes=self.TABLE_SIZES)`. -/
def delItem {V : Type} (t : DKT V) (key1 key2 : String) :
    Except PyError (DKT V) :=
  match hash1 key1 with
  | .error e => .error e
  | .ok position =>
    match t.array.getD position none with
    | none => .error .attributeError
    | some inner =>
      match lptDelete inner key2 with
      | .error e => .error e
      | .ok inner' =>
        .ok ⟨t.tableSizes, t.sizeIndex,
             t.array.set position
               (if inner'.count = 0 then some (lptInit V t.tableSizes) else some inner'),
             t.count⟩

/-- Source `keys(None)`:
`[key1 for key1, internal_table in enumerate(self.array) if not internal_table.is_empty()]`
— the comprehension variable `key1` is the `enumerate` *index*, so the result
is the list of outer slot indices whose inner table is non-empty. -/
def keysNone {V : Type} (t : DKT V) : List Nat :=
  (t.array.enum.filterMap fun p =>
    match p.2 with
    | some inner => if isEmpty inner then none else some p.1
    | none => none)

/-- Source `iter_keys()` with no argument, as used by `_rehash`: the first yielded
element, i.e. the first outer slot index whose inner table is non-empty. -/
def iterKeysFirst {V : Type} (t : DKT V) : Option Nat :=
  (keysNone t).head?

/-- The re-insertion loop of `_rehash` (source lines 283–286): for each stored
`(key2, value)` pair of the old array, evaluate
`key1 = self.iter_keys().__next__()` on the *current* (new) table — raising
StopIteration when it yields nothing — and then `self[key1, key2] = value`
(with `key1` an integer, which `hash1` first converts via `str`). -/
def rehashLoop {V : Type} : DKT V → List (String × V) → DKT V × Except PyError Unit
  | t, [] => (t, .ok ())
  | t, (key2, value) :: rest =>
    match iterKeysFirst t with
    | none => (t, .error .stopIteration)
    | some key1 =>
      match setItem t (toString key1) key2 value with
      | .error e => (t, .error e)
      | .ok t' => rehashLoop t' rest

/-- Source `_rehash()`: increment `size_index`, allocate a new outer
array of fresh inner tables at the next capacity (IndexError when the growth
sequence is exhausted, with `size_index` already incremented), then run the
re-insertion loop over all pairs of the old array in slot order. -/
def rehash {V : Type} (t : DKT V) : DKT V × Except PyError Unit :=
  match t.tableSizes.get? (t.sizeIndex + 1) with
  | none => (⟨t.tableSizes, t.sizeIndex + 1, t.array, t.count⟩, .error .indexError)
  | some cap =>
    let t1 : DKT V := ⟨t.tableSizes, t.sizeIndex + 1,
      List.replicate cap (some (lptInit V t.tableSizes)), t.count⟩
    let pairs := (t.array.map fun s => match s with
      | some inner => items inner
      | none => []).flatten
    rehashLoop t1 pairs

/-- Source `__len__`: sum of the inner tables' lengths. -/
def dktLen {V : Type} (t : DKT V) : Nat :=
  (t.array.map fun s => match s with
    | some inner => inner.count
    | none => 0).sum

/-- Mutating operations on a `DoubleKeyTable`, for stating state invariants
over arbitrary operation sequences. -/
inductive Op : Type where
  | set (k1 k2 : String) (v : Nat)
  | del (k1 k2 : String)
  | probe (k1 k2 : String) (isInsert : Bool)
  | doRehash

/-- Run one operation; a raised exception leaves the table exactly as the
operation left it (the source mutates state only at the points modelled by
the returned tables). -/
def step (t : DKT Nat) : Op → DKT Nat
  | .set k1 k2 v =>
    match setItem t k1 k2 v with
    | .ok t' => t'
    | .error _ => t
  | .del k1 k2 =>
    match delItem t k1 k2 with
    | .ok t' => t'
    | .error _ => t
  | .probe k1 k2 b => (linearProbe t k1 k2 b).1
  | .doRehash => (rehash t).1

/-- Run an operation sequence from a freshly constructed table. -/
def run (ops : List Op) : DKT Nat := ops.foldl step (dktInit Nat none none)

/-- Every outer slot holds a live inner table (is never an absent/`None`
reference). -/
def allSlotsLive {V : Type} (t : DKT V) : Prop := ∀ s ∈ t.array, s.isSome

theorem allSlotsLive_replicate {V : Type} (ts : List Nat) (si : Nat)
    (n : Nat) (x : LPT V) (c : Nat) :
    allSlotsLive (⟨ts, si, List.replicate n (some x), c⟩ : DKT V) := by
  intro s hs
  rw [List.eq_of_mem_replicate hs]
  rfl

theorem allSlotsLive_set_slot {V : Type} {t : DKT V} (h : allSlotsLive t)
    (ts : List Nat) (si i : Nat) (x : LPT V) (c : Nat) :
    allSlotsLive (⟨ts, si, t.array.set i (some x), c⟩ : DKT V) := by
  intro s hs
  rcases List.mem_or_eq_of_mem_set hs with h1 | h2
  · exact h s h1
  · subst h2; rfl

theorem allSlotsLive_init (V : Type) (sizes internalSizes : Option (List Nat)) :
    allSlotsLive (dktInit V sizes internalSizes) :=
  allSlotsLive_replicate _ _ _ _ _

theorem setItem_live {V : Type} {t t' : DKT V} {k1 k2 : String} {v : V}
    (h : allSlotsLive t) (he : setItem t k1 k2 v = .ok t') : allSlotsLive t' := by
  unfold setItem at he
  split at he
  · simp at he
  · split at he
    · simp at he
    · split at he
      · simp at he
      · simp only [Except.ok.injEq] at he
        subst he
        exact allSlotsLive_set_slot h _ _ _ _ _

theorem delItem_live {V : Type} {t t' : DKT V} {k1 k2 : String}
    (h : allSlotsLive t) (he : delItem t k1 k2 = .ok t') : allSlotsLive t' := by
  unfold delItem at he
  split at he
  · simp at he
  · split at he
    · simp at he
    · split at he
      · simp at he
      · simp only [Except.ok.injEq] at he
        subst he
        split
        · exact allSlotsLive_set_slot h _ _ _ _ _
        · exact allSlotsLive_set_slot h _ _ _ _ _

theorem probeFrom_fst {V : Type} (p1 : Nat) (inner : LPT V) (key2 : String)
    (isInsert : Bool) (t' : DKT V) : (probeFrom p1 inner key2 isInsert t').1 = t' := by
  unfold probeFrom
  split <;> rfl

theorem linearProbe_live {V : Type} {t : DKT V} (k1 k2 : String) (b : Bool)
    (h : allSlotsLive t) : allSlotsLive (linearProbe t k1 k2 b).1 := by
  unfold linearProbe
  split
  · exact h
  · split
    · exact h
    · split
      · rw [probeFrom_fst]
        exact allSlotsLive_set_slot h _ _ _ _ _
      · rw [probeFrom_fst]
        exact h

theorem rehashLoop_live {V : Type} :
    ∀ (pairs : List (String × V)) (t : DKT V),
      allSlotsLive t → allSlotsLive (rehashLoop t pairs).1 := by
  intro pairs
  induction pairs with
  | nil => intro t h; exact h
  | cons p rest ih =>
    intro t h
    unfold rehashLoop
    split
    · exact h
    · split
      · exact h
      · next t' hset => exact ih t' (setItem_live h hset)

theorem rehash_live {V : Type} {t : DKT V} (h : allSlotsLive t) :
    allSlotsLive (rehash t).1 := by
  unfold rehash
  split
  · exact fun s hs => h s hs
  · exact rehashLoop_live _ _ (allSlotsLive_replicate _ _ _ _ _)

theorem step_live {t : DKT Nat} (op : Op) (h : allSlotsLive t) :
    allSlotsLive (step t op) := by
  cases op with
  | set k1 k2 v =>
    show allSlotsLive (match setItem t k1 k2 v with | .ok t' => t' | .error _ => t)
    cases hset : setItem t k1 k2 v with
    | ok t' => exact setItem_live h hset
    | error e => exact h
  | del k1 k2 =>
    show allSlotsLive (match delItem t k1 k2 with | .ok t' => t' | .error _ => t)
    cases hdel : delItem t k1 k2 with
    | ok t' => exact delItem_live h hdel
    | error e => exact h
  | probe k1 k2 b => exact linearProbe_live k1 k2 b h
  | doRehash => exact rehash_live h

theorem foldl_step_live :
    ∀ (ops : List Op) (t : DKT Nat), allSlotsLive t → allSlotsLive (ops.foldl step t) := by
  intro ops
  induction ops with
  | nil => intro t h; exact h
  | cons op rest ih => intro t h; exact ih _ (step_live op h)

end DoubleKeyTable

/-! ## Claim theorems -/

open InfiniteHashTable DoubleKeyTable LinearProbeTable

/-- C1: the round-trip claim fails on the code.  `hash1` evaluates
`% self.table_size` where `table_size` is a plain method (no `@property`), so
`__setitem__` raises TypeError for every non-empty first key — already at the
very first insertion, nothing is ever stored. -/
theorem C1_set_raises_typeError :
    setItem (dktInit Nat none none) "a" "b" 1 = .error .typeError := rfl

/-- C2: the length law fails on the code.  After inserting the two distinct
keys "cat" and "car" (which collide at levels 0 and 1), both keys are stored
and retrievable, but `__len__` returns 1, because `__setitem__` increments
`count` only in the empty-slot branch, never in the collision branch or the
recurse-into-child branch. -/
theorem C2_len_undercounts :
    (triCatCar 1 2).map (fun t => (len t, get F t "cat", get F t "car"))
      = .ok (1, .ok 1, .ok 2) := rfl

/-- C3: the collapse law fails on the code.  Insert "cat" and "car", then
delete "car": the child's `count` drops to 1, and the collapse code runs
`k, v = next(iter(entry.array))`, which yields the child's slot 0 — an empty
slot — so the delete raises TypeError instead of storing the surviving
("cat", 1) leaf at the parent slot. -/
theorem C3_collapse_raises_typeError :
    ((triCatCar 1 2).bind fun t => delete F t "car") = .error .typeError := rfl

/-- C4: outer-key enumeration fails on the code.  `keys(None)` iterates
`enumerate(self.array)` and collects the enumeration *indices* of non-empty
inner tables, not the stored first keys: after inserting the pair ("", "k")
(the empty first key is the one key `hash1` can hash without crashing),
`keys(None)` is `[0]` — the slot index — rather than `[""]`. -/
theorem C4_keys_returns_slot_indices :
    (setItem (dktInit Nat none none) "" "k" 1).map keysNone = .ok [0] := rfl

/-- C5: resize preservation fails on the code.  On a table holding one pair,
`_rehash` allocates the new (empty) outer array and then evaluates
`key1 = self.iter_keys().__next__()` against that new array, which yields
nothing — StopIteration is raised and the stored pair is lost. -/
theorem C5_rehash_raises_stopIteration :
    (setItem (dktInit Nat none none) "" "k" 1).map (fun t => (rehash t).2)
      = .ok (.error .stopIteration) := rfl

/-- C6: the probe error contract fails on the code.  With `is_insert = False`
and the absent pair ("a", "b"), `_linear_probe` raises TypeError (from
`hash1`'s `% self.table_size` on the bound method) rather than the KeyError
the contract requires. -/
theorem C6_probe_raises_typeError :
    (linearProbe (dktInit Nat none none) "a" "b" false).2 = .error .typeError := rfl

/-- C7: strict-prefix insertion.  First conjunct: whenever a node's level is
at least the key's length (level = length + d), `hash` returns the sentinel
slot `TABLE_SIZE - 1`, for every key including the empty string.  Second
conjunct (spec scenario 3): after storing "cat" ↦ 1 and "car" ↦ 2, inserting
the strict prefix "ca" ↦ 3 lands in sentinel slot 26 of the node at path
[21, 19], whose level is 2 = length "ca", and the `__getitem__` results of
"cat" and "car" are the same before and after the insertion. -/
theorem C7_sentinel_slot_and_frame :
    (∀ (d : Nat) (key : String), hashAt (key.length + d) key = TABLE_SIZE - 1) ∧
    ((triCatCar 1 2).map (fun t => (get F t "cat", get F t "car"))
        = .ok (.ok 1, .ok 2) ∧
      (triCatCarCa 1 2 3).map (fun t =>
          (get F t "cat", get F t "car", get F t "ca",
           (nodeAtPath t [21, 19]).map fun n => (n.level, n.array.getD 26 .empty)))
        = .ok (.ok 1, .ok 2, .ok 3, some (2, .pair "ca" 3))) := by
  constructor
  · intro d key
    unfold hashAt
    rw [if_neg (by omega)]
  · exact ⟨rfl, rfl⟩

/-- C8: `get_location` fails on the code.  With "cat" and "car" stored (a
three-node path root → level-1 → level-2), `get_location("cat")` extends the
path with the child's full sub-path [19, 12] but then reassigns
`entry = entry.array[12]` on the *immediate* child, an empty slot, and the
next loop iteration calls `.get_location` on `None`, raising AttributeError
instead of returning [21, 19, 12]. -/
theorem C8_location_raises_attributeError :
    ((triCatCar 1 2).bind fun t => getLocation F t "cat") = .error .attributeError := rfl

/-- C9: for every level and every key (the empty string included), `hash`
returns a slot index strictly below `TABLE_SIZE`, so the fixed-size array
accesses of `__getitem__`, `__setitem__`, `__delitem__` and `get_location`
are in bounds. -/
theorem C9_hash_in_bounds :
    ∀ (level : Nat) (key : String), hashAt level key < TABLE_SIZE := by
  intro level key
  unfold hashAt
  split
  · exact Nat.lt_of_lt_of_le (Nat.mod_lt _ (by norm_num [TABLE_SIZE])) (by norm_num)
  · norm_num [TABLE_SIZE]

/-- C10: after any sequence of mutating operations (`__setitem__`,
`__delitem__`, `_linear_probe`, `_rehash`) on a freshly constructed
`DoubleKeyTable`, every outer slot still holds a live inner table — never an
absent/`None` reference — so iteration over the outer array in
`keys`/`values`/`__len__` never encounters `None`. -/
theorem C10_outer_slots_always_live :
    ∀ ops : List Op, allSlotsLive (run ops) := fun ops =>
  foldl_step_live ops _ (allSlotsLive_init Nat none none)

/-- C10 witness: the invariant evaluated on a concrete operation sequence. -/
theorem C10_outer_slots_always_live_witness :
    allSlotsLive (run [Op.set "" "k" 1, Op.del "" "k", Op.doRehash]) :=
  C10_outer_slots_always_live [Op.set "" "k" 1, Op.del "" "k", Op.doRehash]

end A2
